import Mathlib

/-
Shallow embedding of the cargo-cache core: filesystem paths as component lists,
the lazy size/listing accounting of src/cache/registry_index.rs, the snapshot
aggregation of src/dirsizes.rs, and the unreferenced-crate garbage collector of
src/clear_unref.rs.
-/

namespace CargoCache

/-- Paths are modelled as their component lists, mirroring PathBuf::iter. -/
abbrev FilePath' := List String

/-- Embedding of Path::starts_with: the second path is a component-wise prefix
of the first. -/
def starts_with : FilePath' → FilePath' → Bool
  | _, [] => true
  | [], _ :: _ => false
  | x :: xs, y :: ys => x = y && starts_with xs ys

/-- Embedding of Iterator::position on the component list: index of the first
component equal to the given string. -/
def position (s : String) : List String → Option Nat
  | [] => none
  | x :: xs => if x = s then some 0 else (position s xs).map (· + 1)

/-! ## src/cache/registry_index.rs -/

/-- One observed state of the disk under a cache root, as seen by the
RegistryIndexCache operations: whether the root exists (path_exists), whether
it is a directory (is_dir), what a recursive WalkDir of the root returns, and
the result of fs::metadata(f).len() for each file (none models a stat error,
which the source turns into a panic). The disk is held fixed across the calls
of one scenario. -/
structure Disk where
  rootExists : Bool
  rootIsDir : Bool
  walk : List FilePath'
  stat : FilePath' → Option Nat

/-- Embedding of the RegistryIndexCache struct: root path, memoized total size,
the files_calculated flag and the files vector. -/
structure RegistryIndexCache where
  path : FilePath'
  total_size : Option Nat
  files_calculated : Bool
  files : List FilePath'
deriving Repr

/-- Embedding of RegistryIndexCache::new. -/
def RegistryIndexCache.new (path : FilePath') : RegistryIndexCache :=
  { path := path, total_size := none, files_calculated := false, files := [] }

/-- Embedding of RegistryIndexCache::invalidate. -/
def RegistryIndexCache.invalidate (c : RegistryIndexCache) : RegistryIndexCache :=
  { c with total_size := none, files_calculated := false }

/-- Embedding of RegistryIndexCache::files. Returns the listing, the updated
cache state, and whether a recursive walk of the root was performed. Note that
the source checks files_calculated but never sets it to true. -/
def RegistryIndexCache.filesFn (d : Disk) (c : RegistryIndexCache) :
    List FilePath' × RegistryIndexCache × Bool :=
  if c.files_calculated then
    (c.files, c, false)
  else if d.rootExists then
    (d.walk, { c with files := d.walk }, true)
  else
    ([], { c with files := [] }, false)

/-- Embedding of the par_iter().map(metadata len).sum() reduction inside
total_size: the sum of the stat results, or none if any stat fails (the source
panics on a failed stat). Addition order is irrelevant to the sum. -/
def sumSizes (stat : FilePath' → Option Nat) : List FilePath' → Option Nat
  | [] => some 0
  | f :: fs =>
    match stat f, sumSizes stat fs with
    | some n, some s => some (n + s)
    | _, _ => none

/-- Embedding of RegistryIndexCache::total_size. Returns the byte total, the
updated cache state and whether a walk was performed, or none when the source
would panic on a failed file stat. -/
def RegistryIndexCache.total_sizeFn (d : Disk) (c : RegistryIndexCache) :
    Option (Nat × RegistryIndexCache × Bool) :=
  match c.total_size with
  | some s => some (s, c, false)
  | none =>
    if d.rootIsDir then
      let r := c.filesFn d
      match sumSizes d.stat r.1 with
      | none => none
      | some s => some (s, { r.2.1 with total_size := some s }, r.2.2)
    else
      some (0, c, false)

/-- The operations a caller can perform on a RegistryIndexCache. -/
inductive CacheOp where
  | files
  | totalSize
  | invalidate

/-- One operation applied to a cache state; none models a panic. -/
def stepOp (d : Disk) (c : RegistryIndexCache) : CacheOp → Option RegistryIndexCache
  | CacheOp.files => some (c.filesFn d).2.1
  | CacheOp.totalSize => (c.total_sizeFn d).map (fun r => r.2.1)
  | CacheOp.invalidate => some c.invalidate

/-- A sequence of operations applied to a cache state. -/
def runOps (d : Disk) (c : RegistryIndexCache) : List CacheOp → Option RegistryIndexCache
  | [] => some c
  | op :: ops => (stepOp d c op).bind (fun c1 => runOps d c1 ops)

/-- The byte total a fresh observation of the disk yields: the stat-sum over
the walk when the root exists, over the empty listing otherwise. -/
def observedTotal (d : Disk) : Option Nat :=
  sumSizes d.stat (if d.rootExists then d.walk else [])

/-! ## src/clear_unref.rs -/

/-- Embedding of the CargoCachePaths fields used by clear_unref (the struct is
built in src/library.rs, which only consumes the fixed cache-root layout). -/
structure CargoCachePaths where
  cargo_home : FilePath'
  git_checkouts : FilePath'
  registry_sources : FilePath'
  registry_pkg_cache : FilePath'
  git_repos_bare : FilePath'

/-- Embedding of the SourceKind enum. -/
inductive SourceKind where
  | Crate (p : FilePath')
  | Git (p : FilePath')
deriving Repr, DecidableEq

/-- Embedding of SourceKind::inner. -/
def SourceKind.inner : SourceKind → FilePath'
  | SourceKind.Crate p => p
  | SourceKind.Git p => p

/-- The partition discriminant used on line 203 of clear_unref.rs. -/
def SourceKind.isCrate : SourceKind → Bool
  | SourceKind.Crate _ => true
  | SourceKind.Git _ => false

/-- Embedding of find_crate_name_git: locate the first component named
checkouts, take the slice from one before it to three after it, and push those
components onto cargo_home. Returns none where the source panics: no checkouts
component, or a slice out of range. -/
def find_crate_name_git (toml_path cargo_home : FilePath') : Option SourceKind :=
  match position "checkouts" toml_path with
  | none => none
  | some checkouts_pos =>
    if 1 ≤ checkouts_pos ∧ checkouts_pos + 3 ≤ toml_path.length then
      some (SourceKind.Git (cargo_home ++ ((toml_path.drop (checkouts_pos - 1)).take 4)))
    else none

/-- Embedding of find_crate_name_crate: locate the first component named
registry, take the four components from it, and push those onto cargo_home.
Returns none where the source panics. -/
def find_crate_name_crate (toml_path cargo_home : FilePath') : Option SourceKind :=
  match position "registry" toml_path with
  | none => none
  | some registry_pos =>
    if registry_pos + 4 ≤ toml_path.length then
      some (SourceKind.Crate (cargo_home ++ ((toml_path.drop registry_pos).take 4)))
    else none

/-- Embedding of the per-dependency classification on lines 114-126 of
clear_unref.rs: dispatch on which cache subtree the manifest path starts with;
the final branch is an unreachable! panic, modelled as none. -/
def classifyToml (paths : CargoCachePaths) (toml_path : FilePath') : Option SourceKind :=
  if starts_with toml_path paths.git_checkouts then
    find_crate_name_git toml_path paths.cargo_home
  else if starts_with toml_path paths.registry_sources then
    find_crate_name_crate toml_path paths.cargo_home
  else
    none

/-- Embedding of the second map on lines 129-163 of clear_unref.rs: turn a
source-checkout location into the canonical pkg-cache archive (appending the
crate suffix to the final component by string concatenation) and a git
checkout into the canonical bare repo. Returns none where the source would
panic on an index out of range or an unwrap of an empty path. -/
def mapToCanonical (paths : CargoCachePaths) : SourceKind → Option SourceKind
  | SourceKind.Crate registry_src_path =>
    if 2 ≤ registry_src_path.length then
      let package_name := registry_src_path.getLastD ""
      let registry := registry_src_path.dropLast.getLastD ""
      some (SourceKind.Crate
        (paths.registry_pkg_cache ++ [registry, package_name ++ ".crate"]))
    else none
  | SourceKind.Git gitpath =>
    match gitpath.dropLast.getLast? with
    | some repo_name => some (SourceKind.Git (paths.git_repos_bare ++ [repo_name]))
    | none => none

/-- Composition of the classification and canonicalization maps applied to one
manifest path in the required_packages pipeline. -/
def resolveToml (paths : CargoCachePaths) (toml_path : FilePath') : Option SourceKind :=
  (classifyToml paths toml_path).bind (mapToCanonical paths)

/-- Embedding of the required_packages pipeline of clear_unref.rs: keep the
manifest paths inside the cargo home and resolve each to its canonical
location; none if any resolution panics. The Rust value is a lazy iterator, so
this computation only happens where the source consumes the iterator. -/
def requiredPackages (paths : CargoCachePaths) (deps : List FilePath') :
    Option (List SourceKind) :=
  (deps.filter (fun t => starts_with t paths.cargo_home)).mapM (resolveToml paths)

/-- The filter applied to the present entries of a cache on lines 231-248 of
clear_unref.rs: keep exactly the entries not contained in the required list. -/
def unreferenced (present required : List FilePath') : List FilePath' :=
  present.filter (fun entry => !(required.contains entry))

/-- Modelled from the spec: the GitCheckoutCache, GitRepoCache,
RegistryPkgCaches and RegistrySourceCaches types live in cache modules that are
not under src/. Per spec sections 4.1 and 4.2 each memoizes a byte total over
its on-disk entries, total_size returns the memoized or freshly computed
total, and invalidate unsets the memo. The folders field holds the present
entries the garbage collector reads (bare repo folders, or the crate archive
files of all sub-caches). -/
structure ExtCache where
  disk_total : Nat
  memo : Option Nat
  folders : List FilePath'
deriving Repr, DecidableEq

/-- Modelled from the spec: total_size of a cache whose module is not under
src/ returns the memoized total or computes and stores the on-disk total. -/
def ExtCache.total_size (c : ExtCache) : Nat × ExtCache :=
  match c.memo with
  | some s => (s, c)
  | none => (c.disk_total, { c with memo := some c.disk_total })

/-- Modelled from the spec: invalidate unsets the memoized total. -/
def ExtCache.invalidate (c : ExtCache) : ExtCache :=
  { c with memo := none }

/-- The mutable state threaded through clear_unref: the four caches passed by
mutable reference, the size_changed flag, and the list of paths removed from
disk so far. -/
structure GcState where
  checkouts_cache : ExtCache
  bare_repos_cache : ExtCache
  registry_pkg_caches : ExtCache
  registry_sources_caches : ExtCache
  size_changed : Bool
  removed : List FilePath'
deriving Repr, DecidableEq

/-- Modelled from the spec: remove_file lives in src/remove.rs, which is not
under src/. Per spec section 4.5 and the glossary, a dry run computes but does
not apply removals, while an apply deletes the path and records the size
change. -/
def remove_file (path : FilePath') (dry_run : Bool) (size_changed : Bool)
    (removed : List FilePath') : Bool × List FilePath' :=
  if dry_run then (size_changed, removed) else (true, path :: removed)

/-- The externally produced inputs of clear_unref: the result of
crate::local::get_manifest (none models the error the question-mark operator
propagates) and the manifest paths of metadata.packages from the external
cargo-metadata command (none models the exec failure the source turns into a
panic). -/
structure ClearUnrefEnv where
  manifest : Option FilePath'
  metadata : Option (List FilePath')

/-- Result of a clear_unref invocation: success with the final state, an error
value returned to the caller, or a panic. -/
inductive CResult where
  | ok (st : GcState)
  | err
  | panicked
deriving Repr, DecidableEq

/-- Embedding of the block gated behind the remove flag on lines 175-249 of
clear_unref.rs. The dry_run parameter is shadowed by true on line 176; the two
ephemeral caches are dry-run removed and invalidated; the required packages
iterator is consumed (the point where classification panics surface); the
unreferenced filters are computed; and the two for_each bodies are empty, so
nothing is removed from the canonical caches. -/
def clear_unref_remove_block (paths : CargoCachePaths) (deps : List FilePath')
    ( _dry_run : Bool) (st : GcState) : CResult :=
  let dry_run := true
  let chkTotal := st.checkouts_cache.total_size
  let r1 := remove_file paths.git_checkouts dry_run st.size_changed st.removed
  let st := { st with
    size_changed := r1.1, removed := r1.2,
    checkouts_cache := chkTotal.2.invalidate }
  let srcTotal := st.registry_sources_caches.total_size
  let r2 := remove_file paths.registry_sources dry_run st.size_changed st.removed
  let st := { st with
    size_changed := r2.1, removed := r2.2,
    registry_sources_caches := srcTotal.2.invalidate }
  match requiredPackages paths deps with
  | none => CResult.panicked
  | some required_packages =>
    let parts := required_packages.partition (fun dep => dep.isCrate)
    let required_crates := parts.1.map SourceKind.inner
    let required_git_repos := parts.2.map SourceKind.inner
    let bare_repos := st.bare_repos_cache.folders
    let crates := st.registry_pkg_caches.folders
    let _unref_repos := unreferenced bare_repos required_git_repos
    let _unref_crates := unreferenced crates required_crates
    CResult.ok st

/-- Embedding of clear_unref. The required_packages iterator built on lines
108-163 is lazy, so it is only evaluated where the source consumes it, inside
the block gated behind the remove flag; that flag is the constant false, so
the block never runs. -/
def clear_unref (paths : CargoCachePaths) (env : ClearUnrefEnv) (dry_run : Bool)
    (st : GcState) : CResult :=
  match env.manifest with
  | none => CResult.err
  | some _manifest =>
    match env.metadata with
    | none => CResult.panicked
    | some deps =>
      let remove := false
      if remove then clear_unref_remove_block paths deps dry_run st
      else CResult.ok st

/-! ## src/dirsizes.rs -/

/-- Modulus of the u64 arithmetic the size fields use. -/
def U64LIM : Nat := 2 ^ 64

/-- Embedding of the DirSizes struct. -/
structure DirSizes where
  total_size : Nat
  numb_bins : Nat
  total_bin_size : Nat
  total_reg_size : Nat
  total_git_db_size : Nat
  total_git_repos_bare_size : Nat
  numb_git_repos_bare_repos : Nat
  numb_git_checkouts : Nat
  total_git_chk_size : Nat
  total_reg_cache_size : Nat
  total_reg_src_size : Nat
  total_reg_index_size : Nat
  total_reg_index_num : Nat
  numb_reg_cache_entries : Nat
  numb_reg_src_checkouts : Nat
  root_path : FilePath'
deriving Repr

/-- Embedding of DirSizes::new. The rayon::join tree only queries the caches
for the per-category totals and counts; those query results are taken here as
arguments, and the derived sums of lines 136-160 are computed in u64
arithmetic. -/
def DirSizes.new (reg_index_size bin_dir_size numb_bins total_git_repos_bare_size
    numb_git_repos_bare_repos total_git_chk_size numb_git_checkouts
    total_reg_cache_size total_reg_cache_entries total_reg_src_size
    numb_reg_src_checkouts index_num : Nat) (root_path : FilePath') : DirSizes :=
  let total_reg_size := (total_reg_cache_size + total_reg_src_size + reg_index_size) % U64LIM
  let total_git_db_size := (total_git_repos_bare_size + total_git_chk_size) % U64LIM
  let total_bin_size := bin_dir_size
  let total_size := (total_reg_size + total_git_db_size + total_bin_size) % U64LIM
  { total_size := total_size
    numb_bins := numb_bins
    total_bin_size := total_bin_size
    total_reg_size := total_reg_size
    total_git_db_size := total_git_db_size
    total_git_repos_bare_size := total_git_repos_bare_size
    numb_git_repos_bare_repos := numb_git_repos_bare_repos
    numb_git_checkouts := numb_git_checkouts
    total_git_chk_size := total_git_chk_size
    total_reg_cache_size := total_reg_cache_size
    total_reg_src_size := total_reg_src_size
    total_reg_index_size := reg_index_size
    total_reg_index_num := index_num
    numb_reg_cache_entries := total_reg_cache_entries
    numb_reg_src_checkouts := numb_reg_src_checkouts
    root_path := root_path }

/-- Embedding of the DirInfo struct of src/library.rs as used by
DirSizes::new_manually. -/
structure DirInfo where
  dir_size : Nat
  file_number : Nat
deriving Repr

/-- Embedding of DirSizes::new_manually. -/
def DirSizes.new_manually (DI_bindir DI_git_repos_bare DI_git_checkout DI_reg_cache
    DI_reg_src DI_reg_index : DirInfo) (path : FilePath') : DirSizes :=
  let total_reg_size :=
    (DI_reg_index.dir_size + DI_reg_cache.dir_size + DI_reg_src.dir_size) % U64LIM
  let total_git_db_size :=
    (DI_git_repos_bare.dir_size + DI_git_checkout.dir_size) % U64LIM
  { total_size := (total_reg_size + total_git_db_size + DI_bindir.dir_size) % U64LIM
    numb_bins := DI_bindir.file_number
    total_bin_size := DI_bindir.dir_size
    total_reg_size := total_reg_size
    total_git_db_size := total_git_db_size
    total_git_repos_bare_size := DI_git_repos_bare.dir_size
    numb_git_repos_bare_repos := DI_git_repos_bare.file_number
    numb_git_checkouts := DI_git_checkout.file_number
    total_git_chk_size := DI_git_checkout.dir_size
    total_reg_cache_size := DI_reg_cache.dir_size
    numb_reg_cache_entries := DI_reg_cache.file_number
    total_reg_src_size := DI_reg_src.dir_size
    numb_reg_src_checkouts := DI_reg_src.file_number
    total_reg_index_size := DI_reg_index.dir_size
    total_reg_index_num := 1
    root_path := path }

/-! ## Helper lemmas -/

theorem starts_with_append_both (l a b : FilePath') :
    starts_with (l ++ a) (l ++ b) = starts_with a b := by
  induction l with
  | nil => rfl
  | cons x xs ih => simp [starts_with, ih]

theorem position_append_some (s : String) (l₁ l₂ : List String) (hmem : s ∉ l₁)
    (k : Nat) (hk : position s l₂ = some k) :
    position s (l₁ ++ l₂) = some (l₁.length + k) := by
  induction l₁ with
  | nil => simpa using hk
  | cons x xs ih =>
    have hx : ¬(x = s) := fun he => hmem (he ▸ List.mem_cons_self x xs)
    have h2 : s ∉ xs := fun hm => hmem (List.mem_cons_of_mem x hm)
    simp only [List.cons_append, position, hx, if_false, List.append_eq, ih h2,
      Option.map_some', List.length_cons]
    exact congrArg some (by omega)

theorem concat_four (l : List String) (a b c e : String) :
    l ++ [a, b, c, e] = (l ++ [a, b, c]) ++ [e] := by simp

theorem concat_three (l : List String) (a b c : String) :
    l ++ [a, b, c] = (l ++ [a, b]) ++ [c] := by simp

theorem sumSizes_eq_none_of_mem (stat : FilePath' → Option Nat) (l : List FilePath')
    (f : FilePath') (hf : f ∈ l) (hstat : stat f = none) :
    sumSizes stat l = none := by
  induction l with
  | nil => cases hf
  | cons x xs ih =>
    rcases List.mem_cons.mp hf with h | h
    · subst h
      simp [sumSizes, hstat]
    · cases hx : stat x <;> simp [sumSizes, hx, ih h]

theorem filesFn_of_not_calculated (d : Disk) (c : RegistryIndexCache)
    (h : c.files_calculated = false) :
    (c.filesFn d).1 = (if d.rootExists then d.walk else []) ∧
    (c.filesFn d).2.1.files_calculated = false ∧
    (c.filesFn d).2.1.total_size = c.total_size := by
  unfold RegistryIndexCache.filesFn
  cases hE : d.rootExists <;> simp [h, hE]

/-! ## Concrete scenarios used by witnesses and counterexamples -/

/-- A disk whose root exists, is a directory, and holds one 5-byte file. -/
def disk1 : Disk :=
  { rootExists := true, rootIsDir := true, walk := [["r", "f"]],
    stat := fun q => if q = ["r", "f"] then some 5 else none }

/-- A disk with two listed files of which the second has no stat result (it
vanished between the listing and the stat). -/
def disk4 : Disk :=
  { rootExists := true, rootIsDir := true, walk := [["r", "f"], ["r", "g"]],
    stat := fun q => if q = ["r", "f"] then some 3 else none }

/-- A disk whose root does not exist. -/
def disk8 : Disk :=
  { rootExists := false, rootIsDir := false, walk := [], stat := fun _ => none }

/-- The cache state reached from a fresh entry on disk1 after one total_size
call: the size is memoized but the files_calculated flag is still unset. -/
def cacheAfterTotal : RegistryIndexCache :=
  { path := ["r"], total_size := some 5, files_calculated := false,
    files := [["r", "f"]] }

/-! ## Claims about src/cache/registry_index.rs -/

/-- C7: for every cache entry, two consecutive total_size calls with no
intervening invalidate return the identical value (and the identical state),
and the second call performs no disk walk. -/
theorem total_size_memoized (d : Disk) (c : RegistryIndexCache) (s : Nat)
    (c1 : RegistryIndexCache) (w : Bool)
    (h : c.total_sizeFn d = some (s, c1, w)) :
    c1.total_sizeFn d = some (s, c1, false) := by
  unfold RegistryIndexCache.total_sizeFn at h ⊢
  cases hts : c.total_size with
  | some s0 =>
    rw [hts] at h
    simp only [Option.some.injEq, Prod.mk.injEq] at h
    obtain ⟨rfl, rfl, rfl⟩ := h
    rw [hts]
  | none =>
    rw [hts] at h
    cases hD : d.rootIsDir with
    | false =>
      simp only [hD, Bool.false_eq_true, if_false, Option.some.injEq,
        Prod.mk.injEq] at h
      obtain ⟨rfl, rfl, rfl⟩ := h
      rw [hts]
      simp [hD]
    | true =>
      simp only [hD, if_true] at h
      cases hs : sumSizes d.stat (c.filesFn d).1 with
      | none => rw [hs] at h; cases h
      | some s0 =>
        rw [hs] at h
        simp only [Option.some.injEq, Prod.mk.injEq] at h
        obtain ⟨rfl, rfl, rfl⟩ := h
        rfl

/-- Witness for C7 at a concrete entry and disk. -/
theorem total_size_memoized_witness :
    (RegistryIndexCache.new ["r"]).total_sizeFn disk1 = some (5, cacheAfterTotal, true) ∧
    cacheAfterTotal.total_sizeFn disk1 = some (5, cacheAfterTotal, false) :=
  ⟨rfl, total_size_memoized disk1 (RegistryIndexCache.new ["r"]) 5 cacheAfterTotal true rfl⟩

/-- C8: for every cache entry whose root path does not exist on disk, files
returns the empty listing (without walking) and total_size returns 0, and
neither operation panics or errors. -/
theorem zero_state_nonexistent_root (d : Disk) (c : RegistryIndexCache)
    (hE : d.rootExists = false) (hD : d.rootIsDir = false)
    (hts : c.total_size = none) (hfc : c.files_calculated = false) :
    (c.filesFn d).1 = [] ∧ (c.filesFn d).2.2 = false ∧
    c.total_sizeFn d = some (0, c, false) := by
  refine ⟨?_, ?_, ?_⟩
  · unfold RegistryIndexCache.filesFn
    simp [hfc, hE]
  · unfold RegistryIndexCache.filesFn
    simp [hfc, hE]
  · unfold RegistryIndexCache.total_sizeFn
    rw [hts]
    simp [hD]

/-- Witness for C8 at a fresh entry over a nonexistent root. -/
theorem zero_state_nonexistent_root_witness :
    ((RegistryIndexCache.new ["r"]).filesFn disk8).1 = [] ∧
    ((RegistryIndexCache.new ["r"]).filesFn disk8).2.2 = false ∧
    (RegistryIndexCache.new ["r"]).total_sizeFn disk8 =
      some (0, RegistryIndexCache.new ["r"], false) :=
  zero_state_nonexistent_root disk8 (RegistryIndexCache.new ["r"]) rfl rfl rfl rfl

/-- C6 (code bug): evaluation of the code at the failing input. From a fresh
entry over an existing root, the first files call walks, and the second files
call walks again: files never sets the files_calculated flag, so a Populated
entry re-walks on every call, contrary to the claim. -/
theorem files_rewalks_after_first_call :
    ((RegistryIndexCache.new ["r"]).filesFn disk1).2.2 = true ∧
    (((RegistryIndexCache.new ["r"]).filesFn disk1).2.1.filesFn disk1).2.2 = true ∧
    (((RegistryIndexCache.new ["r"]).filesFn disk1).2.1.filesFn disk1).1 = [["r", "f"]] :=
  ⟨rfl, rfl, rfl⟩

/-- C4 counterexample: on a disk where a listed file has no stat result, a
fresh total_size call aborts (the source panics) instead of skipping the file
and summing the remaining ones as the claim states. -/
theorem total_size_stat_failure_cex :
    (RegistryIndexCache.new ["r"]).total_sizeFn disk4 = none := rfl

/-- C4 amended: during total_size computation, if obtaining the size of any
file in the listing fails, the whole computation panics; no file is skipped
and no partial sum is produced. -/
theorem total_size_stat_failure_panics (d : Disk) (c : RegistryIndexCache)
    (hts : c.total_size = none) (hD : d.rootIsDir = true)
    (f : FilePath') (hf : f ∈ (c.filesFn d).1) (hstat : d.stat f = none) :
    c.total_sizeFn d = none := by
  unfold RegistryIndexCache.total_sizeFn
  rw [hts]
  simp only [hD, if_true]
  rw [sumSizes_eq_none_of_mem d.stat (c.filesFn d).1 f hf hstat]

/-- Witness for the amended C4 at the concrete disk with a vanished file. -/
theorem total_size_stat_failure_witness :
    (RegistryIndexCache.new ["r"]).total_size = none ∧
    disk4.rootIsDir = true ∧
    ["r", "g"] ∈ ((RegistryIndexCache.new ["r"]).filesFn disk4).1 ∧
    disk4.stat ["r", "g"] = none ∧
    (RegistryIndexCache.new ["r"]).total_sizeFn disk4 = none :=
  ⟨rfl, rfl, by decide, rfl,
    total_size_stat_failure_panics disk4 (RegistryIndexCache.new ["r"]) rfl rfl
      ["r", "g"] (by decide) rfl⟩

/-- The invariant that actually holds of every reachable cache state: the
files_calculated flag is never set, and the memoized size, when set, was
computed over a directory root from the stat-sum of the current disk
observation. -/
def SizeListingInv (d : Disk) (c : RegistryIndexCache) : Prop :=
  c.files_calculated = false ∧
    ∀ s, c.total_size = some s → d.rootIsDir = true ∧ observedTotal d = some s

theorem filesFn_preserves_inv (d : Disk) (c : RegistryIndexCache)
    (hinv : SizeListingInv d c) : SizeListingInv d (c.filesFn d).2.1 := by
  obtain ⟨h1, h2⟩ := hinv
  obtain ⟨-, hb, hc⟩ := filesFn_of_not_calculated d c h1
  exact ⟨hb, fun s hs => h2 s (hc ▸ hs)⟩

theorem total_sizeFn_preserves_inv (d : Disk) (c : RegistryIndexCache) (s : Nat)
    (c1 : RegistryIndexCache) (w : Bool) (hinv : SizeListingInv d c)
    (h : c.total_sizeFn d = some (s, c1, w)) : SizeListingInv d c1 := by
  obtain ⟨h1, h2⟩ := hinv
  unfold RegistryIndexCache.total_sizeFn at h
  cases hts : c.total_size with
  | some s0 =>
    rw [hts] at h
    simp only [Option.some.injEq, Prod.mk.injEq] at h
    obtain ⟨rfl, rfl, rfl⟩ := h
    exact ⟨h1, h2⟩
  | none =>
    rw [hts] at h
    cases hD : d.rootIsDir with
    | false =>
      simp only [hD, Bool.false_eq_true, if_false, Option.some.injEq,
        Prod.mk.injEq] at h
      obtain ⟨rfl, rfl, rfl⟩ := h
      exact ⟨h1, h2⟩
    | true =>
      simp only [hD, if_true] at h
      cases hs : sumSizes d.stat (c.filesFn d).1 with
      | none => rw [hs] at h; cases h
      | some s0 =>
        rw [hs] at h
        simp only [Option.some.injEq, Prod.mk.injEq] at h
        obtain ⟨rfl, rfl, rfl⟩ := h
        obtain ⟨ha, hb, -⟩ := filesFn_of_not_calculated d c h1
        refine ⟨hb, fun s1 hs1 => ?_⟩
        simp only [RegistryIndexCache.total_size] at hs1
        have : s1 = s0 := by
          have := hs1
          simp only [Option.some.injEq] at this
          omega
        subst this
        refine ⟨hD, ?_⟩
        rw [observedTotal, ← ha, hs]

theorem stepOp_preserves_inv (d : Disk) (c c1 : RegistryIndexCache) (op : CacheOp)
    (hinv : SizeListingInv d c) (h : stepOp d c op = some c1) : SizeListingInv d c1 := by
  cases op with
  | files =>
    simp only [stepOp, Option.some.injEq] at h
    subst h
    exact filesFn_preserves_inv d c hinv
  | totalSize =>
    simp only [stepOp] at h
    cases hr : c.total_sizeFn d with
    | none => rw [hr] at h; cases h
    | some r =>
      rw [hr] at h
      simp only [Option.map_some', Option.some.injEq] at h
      subst h
      exact total_sizeFn_preserves_inv d c r.1 r.2.1 r.2.2 hinv hr
  | invalidate =>
    simp only [stepOp, Option.some.injEq] at h
    subst h
    exact ⟨rfl, fun s hs => by cases hs⟩

theorem runOps_preserves_inv (d : Disk) (ops : List CacheOp)
    (c c1 : RegistryIndexCache) (hinv : SizeListingInv d c)
    (h : runOps d c ops = some c1) : SizeListingInv d c1 := by
  induction ops generalizing c with
  | nil =>
    simp only [runOps, Option.some.injEq] at h
    subst h
    exact hinv
  | cons op ops ih =>
    simp only [runOps] at h
    cases hstep : stepOp d c op with
    | none => rw [hstep] at h; cases h
    | some c2 =>
      rw [hstep] at h
      simp only [Option.some_bind] at h
      exact ih c2 (stepOp_preserves_inv d c c2 op hinv hstep) h

/-- C5 counterexample: from a fresh entry over a one-file directory, a single
total_size call reaches a state whose memoized size is set while the memoized
listing is still unset, refuting the claimed both-unset-or-both-set invariant. -/
theorem memo_consistency_cex :
    (runOps disk1 (RegistryIndexCache.new ["r"]) [CacheOp.totalSize]).map
      (fun c => (c.total_size, c.files_calculated)) = some (some 5, false) := rfl

/-- C5 amended: in every reachable state of a cache entry the memoized listing
is unset (files never raises the files_calculated flag), the memoized size,
when set, reflects the stat-sum of the current disk observation of a directory
root, and invalidate unsets both memoized fields atomically. -/
theorem memo_consistency_amended (d : Disk) (p : FilePath') (ops : List CacheOp)
    (c : RegistryIndexCache) (h : runOps d (RegistryIndexCache.new p) ops = some c) :
    (c.files_calculated = false ∧
      ∀ s, c.total_size = some s → d.rootIsDir = true ∧ observedTotal d = some s) ∧
    (c.invalidate.total_size = none ∧ c.invalidate.files_calculated = false) := by
  have hnew : SizeListingInv d (RegistryIndexCache.new p) :=
    ⟨rfl, fun s hs => by cases hs⟩
  exact ⟨runOps_preserves_inv d ops _ c hnew h, rfl, rfl⟩

/-- Witness for the amended C5 at a concrete run. -/
theorem memo_consistency_amended_witness :
    runOps disk1 (RegistryIndexCache.new ["r"]) [CacheOp.totalSize] = some cacheAfterTotal ∧
    ((cacheAfterTotal.files_calculated = false ∧
        ∀ s, cacheAfterTotal.total_size = some s →
          disk1.rootIsDir = true ∧ observedTotal disk1 = some s) ∧
      (cacheAfterTotal.invalidate.total_size = none ∧
        cacheAfterTotal.invalidate.files_calculated = false)) :=
  ⟨rfl, memo_consistency_amended disk1 ["r"] [CacheOp.totalSize] cacheAfterTotal rfl⟩

/-! ## Claims about src/dirsizes.rs -/

/-- C9: in every snapshot report the derived fields satisfy exactly the
aggregate identities: registry size is index plus archive plus source size,
git-db size is bare-repo plus checkout size, and the grand total is registry
plus git-db plus binary size; this holds for DirSizes::new and for
DirSizes::new_manually whenever the u64 sums do not overflow. -/
theorem dirsizes_aggregate_identities
    (reg_index_size bin_dir_size numb_bins bare_size bare_num chk_size chk_num
      cache_size cache_num src_size src_num index_num : Nat) (root : FilePath')
    (i1 i2 i3 i4 i5 i6 : DirInfo) (p : FilePath')
    (h1 : cache_size + src_size + reg_index_size < U64LIM)
    (h2 : bare_size + chk_size < U64LIM)
    (h3 : cache_size + src_size + reg_index_size + (bare_size + chk_size) +
      bin_dir_size < U64LIM)
    (g1 : i6.dir_size + i4.dir_size + i5.dir_size < U64LIM)
    (g2 : i2.dir_size + i3.dir_size < U64LIM)
    (g3 : i6.dir_size + i4.dir_size + i5.dir_size + (i2.dir_size + i3.dir_size) +
      i1.dir_size < U64LIM) :
    (let ds := DirSizes.new reg_index_size bin_dir_size numb_bins bare_size bare_num
        chk_size chk_num cache_size cache_num src_size src_num index_num root;
      ds.total_reg_size = ds.total_reg_index_size + ds.total_reg_cache_size +
          ds.total_reg_src_size ∧
        ds.total_git_db_size = ds.total_git_repos_bare_size + ds.total_git_chk_size ∧
        ds.total_size = ds.total_reg_size + ds.total_git_db_size + ds.total_bin_size) ∧
    (let dm := DirSizes.new_manually i1 i2 i3 i4 i5 i6 p;
      dm.total_reg_size = dm.total_reg_index_size + dm.total_reg_cache_size +
          dm.total_reg_src_size ∧
        dm.total_git_db_size = dm.total_git_repos_bare_size + dm.total_git_chk_size ∧
        dm.total_size = dm.total_reg_size + dm.total_git_db_size + dm.total_bin_size) := by
  constructor
  · simp only [DirSizes.new]
    rw [Nat.mod_eq_of_lt h1, Nat.mod_eq_of_lt h2, Nat.mod_eq_of_lt h3]
    refine ⟨by omega, by omega, by omega⟩
  · simp only [DirSizes.new_manually]
    rw [Nat.mod_eq_of_lt g1, Nat.mod_eq_of_lt g2, Nat.mod_eq_of_lt g3]
    refine ⟨by omega, by omega, by omega⟩

/-- Witness for C9 at the sizes of the first DirSizes unit test of the source. -/
theorem dirsizes_aggregate_identities_witness :
    (89 + 1938493989 + 23 < U64LIM ∧ 121212 + 34984 < U64LIM) ∧
    (let ds := DirSizes.new 23 121212 31 121212 37 34984 8 89 23445 1938493989
        123909849 1 ["/", "home", "user", ".cargo"];
      ds.total_reg_size = ds.total_reg_index_size + ds.total_reg_cache_size +
          ds.total_reg_src_size ∧
        ds.total_git_db_size = ds.total_git_repos_bare_size + ds.total_git_chk_size ∧
        ds.total_size = ds.total_reg_size + ds.total_git_db_size + ds.total_bin_size) ∧
    (let dm := DirSizes.new_manually ⟨121212, 31⟩ ⟨121212, 37⟩ ⟨34984, 8⟩ ⟨89, 23445⟩
        ⟨1938493989, 123909849⟩ ⟨23, 12345⟩ ["/", "home", "user", ".cargo"];
      dm.total_reg_size = dm.total_reg_index_size + dm.total_reg_cache_size +
          dm.total_reg_src_size ∧
        dm.total_git_db_size = dm.total_git_repos_bare_size + dm.total_git_chk_size ∧
        dm.total_size = dm.total_reg_size + dm.total_git_db_size + dm.total_bin_size) :=
  ⟨⟨by decide, by decide⟩,
    dirsizes_aggregate_identities 23 121212 31 121212 37 34984 8 89 23445 1938493989
      123909849 1 ["/", "home", "user", ".cargo"] ⟨121212, 31⟩ ⟨121212, 37⟩ ⟨34984, 8⟩
      ⟨89, 23445⟩ ⟨1938493989, 123909849⟩ ⟨23, 12345⟩ ["/", "home", "user", ".cargo"]
      (by decide) (by decide) (by decide) (by decide) (by decide) (by decide)⟩

/-! ## Computation lemmas for the path-resolution functions -/

theorem find_crate_name_crate_eq (toml cargo_home : FilePath') (k : Nat)
    (hp : position "registry" toml = some k) (hk : k + 4 ≤ toml.length) :
    find_crate_name_crate toml cargo_home =
      some (SourceKind.Crate (cargo_home ++ ((toml.drop k).take 4))) := by
  unfold find_crate_name_crate
  rw [hp]
  exact if_pos hk

theorem find_crate_name_git_eq (toml cargo_home : FilePath') (k : Nat)
    (hp : position "checkouts" toml = some k) (hk : 1 ≤ k ∧ k + 3 ≤ toml.length) :
    find_crate_name_git toml cargo_home =
      some (SourceKind.Git (cargo_home ++ ((toml.drop (k - 1)).take 4))) := by
  unfold find_crate_name_git
  rw [hp]
  exact if_pos hk

theorem mapToCanonical_crate_eq (paths : CargoCachePaths) (p : FilePath')
    (hp : 2 ≤ p.length) :
    mapToCanonical paths (SourceKind.Crate p) =
      some (SourceKind.Crate (paths.registry_pkg_cache ++
        [p.dropLast.getLastD "", p.getLastD "" ++ ".crate"])) := by
  unfold mapToCanonical
  exact if_pos hp

theorem mapToCanonical_git_eq (paths : CargoCachePaths) (p : FilePath') (repo : String)
    (hp : p.dropLast.getLast? = some repo) :
    mapToCanonical paths (SourceKind.Git p) =
      some (SourceKind.Git (paths.git_repos_bare ++ [repo])) := by
  unfold mapToCanonical
  dsimp only
  rw [hp]

theorem resolve_registry_manifest (root : FilePath') (ident nv : String)
    (paths : CargoCachePaths) (hr : "registry" ∉ root)
    (hhome : paths.cargo_home = root)
    (hchk : paths.git_checkouts = root ++ ["git", "checkouts"])
    (hsrc : paths.registry_sources = root ++ ["registry", "src"])
    (hpkg : paths.registry_pkg_cache = root ++ ["registry", "cache"]) :
    resolveToml paths (root ++ ["registry", "src", ident, nv, "Cargo.toml"]) =
      some (SourceKind.Crate (root ++ ["registry", "cache", ident, nv ++ ".crate"])) := by
  have hA1 : starts_with (root ++ ["registry", "src", ident, nv, "Cargo.toml"])
      paths.git_checkouts = false := by
    rw [hchk, starts_with_append_both]
    rfl
  have hA2 : starts_with (root ++ ["registry", "src", ident, nv, "Cargo.toml"])
      paths.registry_sources = true := by
    rw [hsrc, starts_with_append_both]
    rfl
  have hpos : position "registry" (root ++ ["registry", "src", ident, nv, "Cargo.toml"]) =
      some root.length := by
    simpa using position_append_some "registry" root
      ["registry", "src", ident, nv, "Cargo.toml"] hr 0 rfl
  have hlen : root.length + 4 ≤
      (root ++ ["registry", "src", ident, nv, "Cargo.toml"]).length := by
    simp only [List.length_append, List.length_cons, List.length_nil]
    omega
  have hdrop : ((root ++ ["registry", "src", ident, nv, "Cargo.toml"]).drop
      root.length).take 4 = ["registry", "src", ident, nv] := by
    rw [List.drop_left]
    rfl
  have hlen2 : 2 ≤ (root ++ ["registry", "src", ident, nv]).length := by
    simp only [List.length_append, List.length_cons, List.length_nil]
    omega
  have e2 : (root ++ ["registry", "src", ident, nv]).getLastD "" = nv := by
    rw [concat_four, List.getLastD_concat]
  have e3 : (root ++ ["registry", "src", ident, nv]).dropLast.getLastD "" = ident := by
    rw [concat_four, List.dropLast_concat, concat_three, List.getLastD_concat]
  unfold resolveToml classifyToml
  rw [hA1, hA2]
  simp only [Bool.false_eq_true, if_false, if_true]
  rw [hhome, find_crate_name_crate_eq _ _ root.length hpos hlen, hdrop,
    Option.some_bind, mapToCanonical_crate_eq _ _ hlen2, e2, e3, hpkg]
  simp

theorem resolve_git_manifest (root : FilePath') (repo rref : String)
    (paths : CargoCachePaths) (hc : "checkouts" ∉ root)
    (hhome : paths.cargo_home = root)
    (hchk : paths.git_checkouts = root ++ ["git", "checkouts"])
    (hdb : paths.git_repos_bare = root ++ ["git", "db"]) :
    resolveToml paths (root ++ ["git", "checkouts", repo, rref, "Cargo.toml"]) =
      some (SourceKind.Git (root ++ ["git", "db", repo])) := by
  have hA1 : starts_with (root ++ ["git", "checkouts", repo, rref, "Cargo.toml"])
      paths.git_checkouts = true := by
    rw [hchk, starts_with_append_both]
    rfl
  have hpos : position "checkouts" (root ++ ["git", "checkouts", repo, rref, "Cargo.toml"]) =
      some (root.length + 1) := by
    exact position_append_some "checkouts" root
      ["git", "checkouts", repo, rref, "Cargo.toml"] hc 1 rfl
  have hk : 1 ≤ root.length + 1 ∧ root.length + 1 + 3 ≤
      (root ++ ["git", "checkouts", repo, rref, "Cargo.toml"]).length := by
    simp only [List.length_append, List.length_cons, List.length_nil]
    omega
  have hdrop : ((root ++ ["git", "checkouts", repo, rref, "Cargo.toml"]).drop
      (root.length + 1 - 1)).take 4 = ["git", "checkouts", repo, rref] := by
    rw [Nat.add_sub_cancel, List.drop_left]
    rfl
  have hlast : (root ++ ["git", "checkouts", repo, rref]).dropLast.getLast? = some repo := by
    rw [concat_four, List.dropLast_concat, concat_three, List.getLast?_concat]
  unfold resolveToml classifyToml
  rw [hA1]
  simp only [if_true]
  rw [hhome, find_crate_name_git_eq _ _ (root.length + 1) hpos hk, hdrop,
    Option.some_bind, mapToCanonical_git_eq _ _ repo hlast, hdb]
  simp

/-- A cache root one of whose own components is the registry marker segment
the resolution functions search for. -/
def rootBad : FilePath' := ["/", "home", "registry", ".cargo"]

/-- The cache-root layout over rootBad. -/
def pathsBad : CargoCachePaths :=
  { cargo_home := rootBad
    git_checkouts := rootBad ++ ["git", "checkouts"]
    registry_sources := rootBad ++ ["registry", "src"]
    registry_pkg_cache := rootBad ++ ["registry", "cache"]
    git_repos_bare := rootBad ++ ["git", "db"] }

/-- C2 counterexample: the claim does not hold for every cache root. For the
root /home/registry/.cargo, find_crate_name_crate slices from the first
component named registry, which here lies inside the root itself, so the
registry-sourced manifest path resolves to
root/registry/cache/registry/src.crate instead of the claimed
root/registry/cache/example.com-abcdef/foo-1.2.3.crate. -/
theorem resolve_manifest_paths_cex :
    resolveToml pathsBad
        (rootBad ++ ["registry", "src", "example.com-abcdef", "foo-1.2.3", "Cargo.toml"]) =
      some (SourceKind.Crate (rootBad ++ ["registry", "cache", "registry", "src.crate"])) ∧
    resolveToml pathsBad
        (rootBad ++ ["registry", "src", "example.com-abcdef", "foo-1.2.3", "Cargo.toml"]) ≠
      some (SourceKind.Crate
        (rootBad ++ ["registry", "cache", "example.com-abcdef", "foo-1.2.3.crate"])) := by
  refine ⟨rfl, ?_⟩
  decide

/-- C2 amended: over any cache root whose own components contain neither the
registry nor the checkouts marker (the resolution functions slice from the
first occurrence of the marker in the whole manifest path), resolving a
registry-sourced manifest path yields the required archive path with the
crate suffix appended to the final component by string concatenation, and
resolving a git-sourced manifest path yields the required bare-repo path
under the git db. -/
theorem resolve_manifest_paths (root : FilePath') (ident nv repo rref : String)
    (paths : CargoCachePaths)
    (hr : "registry" ∉ root) (hc : "checkouts" ∉ root)
    (hhome : paths.cargo_home = root)
    (hchk : paths.git_checkouts = root ++ ["git", "checkouts"])
    (hsrc : paths.registry_sources = root ++ ["registry", "src"])
    (hpkg : paths.registry_pkg_cache = root ++ ["registry", "cache"])
    (hdb : paths.git_repos_bare = root ++ ["git", "db"]) :
    resolveToml paths (root ++ ["registry", "src", ident, nv, "Cargo.toml"]) =
      some (SourceKind.Crate (root ++ ["registry", "cache", ident, nv ++ ".crate"])) ∧
    resolveToml paths (root ++ ["git", "checkouts", repo, rref, "Cargo.toml"]) =
      some (SourceKind.Git (root ++ ["git", "db", repo])) :=
  ⟨resolve_registry_manifest root ident nv paths hr hhome hchk hsrc hpkg,
    resolve_git_manifest root repo rref paths hc hhome hchk hdb⟩

/-! ## Concrete garbage-collection scenario -/

/-- The cache root of the literal spec example. -/
def root0 : FilePath' := ["/", "cache"]

/-- The cache-root layout over root0. -/
def paths0 : CargoCachePaths :=
  { cargo_home := root0
    git_checkouts := root0 ++ ["git", "checkouts"]
    registry_sources := root0 ++ ["registry", "src"]
    registry_pkg_cache := root0 ++ ["registry", "cache"]
    git_repos_bare := root0 ++ ["git", "db"] }

/-- Present bare repository A. -/
def repoA : FilePath' := root0 ++ ["git", "db", "A"]

/-- Present bare repository B, the one a dependency requires. -/
def repoB : FilePath' := root0 ++ ["git", "db", "B"]

/-- Present bare repository C. -/
def repoC : FilePath' := root0 ++ ["git", "db", "C"]

/-- The manifest path of the project whose dependencies are resolved. -/
def projManifest : FilePath' := ["/", "proj", "Cargo.toml"]

/-- The in-cache manifest path of the dependency living in the checkout of
repository B. -/
def gitTomlB : FilePath' := root0 ++ ["git", "checkouts", "B", "deadbee", "Cargo.toml"]

/-- A manifest path under the cache root but under neither the git-checkouts
subtree nor the registry-sources subtree. -/
def badToml : FilePath' := root0 ++ ["registry", "index", "x", "Cargo.toml"]

/-- Garbage-collector state with present bare repos A, B and C. -/
def st0 : GcState :=
  { checkouts_cache := { disk_total := 10, memo := none, folders := [] }
    bare_repos_cache := { disk_total := 30, memo := none, folders := [repoA, repoB, repoC] }
    registry_pkg_caches := { disk_total := 20, memo := none, folders := [] }
    registry_sources_caches := { disk_total := 40, memo := none, folders := [] }
    size_changed := false
    removed := [] }

/-- Environment in which the project manifest is found, metadata resolution
succeeds, and the single in-cache dependency requires bare repo B. -/
def env0 : ClearUnrefEnv :=
  { manifest := some projManifest, metadata := some [gitTomlB] }

/-- Environment whose dependency list contains the unclassifiable manifest
path. -/
def env3 : ClearUnrefEnv :=
  { manifest := some projManifest, metadata := some [badToml] }

/-! ## Claims about src/clear_unref.rs -/

/-- C10: when the project manifest is located and the metadata command
succeeds, clear_unref returns Ok and leaves the caches, the size_changed flag
and the disk unchanged, for both values of dry_run; in particular this holds
when every in-cache manifest path classifies under one of the two known
subtrees. -/
theorem clear_unref_no_mutation (paths : CargoCachePaths) (env : ClearUnrefEnv)
    (dry_run : Bool) (st : GcState) (m : FilePath') (deps : List FilePath')
    (hm : env.manifest = some m) (hd : env.metadata = some deps)
    (hclass : ∀ t ∈ deps, starts_with t paths.cargo_home = true →
      starts_with t paths.git_checkouts = true ∨
        starts_with t paths.registry_sources = true) :
    clear_unref paths env dry_run st = CResult.ok st := by
  unfold clear_unref
  rw [hm, hd]
  rfl

/-- Witness for C10: the concrete well-classified scenario, in apply mode. -/
theorem clear_unref_no_mutation_witness :
    env0.manifest = some projManifest ∧ env0.metadata = some [gitTomlB] ∧
    (∀ t ∈ [gitTomlB], starts_with t paths0.cargo_home = true →
      starts_with t paths0.git_checkouts = true ∨
        starts_with t paths0.registry_sources = true) ∧
    clear_unref paths0 env0 false st0 = CResult.ok st0 :=
  ⟨rfl, rfl, by decide,
    clear_unref_no_mutation paths0 env0 false st0 projManifest [gitTomlB] rfl rfl
      (by decide)⟩

/-- Witness for C2 at the literal paths of the spec example. -/
theorem resolve_manifest_paths_witness :
    ("registry" ∉ root0 ∧ "checkouts" ∉ root0) ∧
    (resolveToml paths0
        (root0 ++ ["registry", "src", "example.com-abcdef", "foo-1.2.3", "Cargo.toml"]) =
      some (SourceKind.Crate
        (root0 ++ ["registry", "cache", "example.com-abcdef", "foo-1.2.3" ++ ".crate"])) ∧
    resolveToml paths0 (root0 ++ ["git", "checkouts", "bar-123abc", "deadbee", "Cargo.toml"]) =
      some (SourceKind.Git (root0 ++ ["git", "db", "bar-123abc"]))) :=
  ⟨⟨by decide, by decide⟩,
    resolve_manifest_paths root0 "example.com-abcdef" "foo-1.2.3" "bar-123abc" "deadbee"
      paths0 (by decide) (by decide) rfl rfl rfl rfl rfl⟩

/-- C1 counterexample: in the spec's own scenario (present bare repos A, B, C;
required B, so the eligible set is A and C) an apply-mode invocation removes
nothing: clear_unref returns Ok with the state unchanged, no path is deleted,
and the eligible repo A is still present afterwards. -/
theorem gc_apply_removes_nothing_cex :
    unreferenced st0.bare_repos_cache.folders [repoB] = [repoA, repoC] ∧
    requiredPackages paths0 [gitTomlB] = some [SourceKind.Git repoB] ∧
    clear_unref paths0 env0 false st0 = CResult.ok st0 ∧
    st0.removed = [] ∧ repoA ∈ st0.bare_repos_cache.folders := by
  refine ⟨rfl, rfl, rfl, rfl, ?_⟩
  decide

/-- C1 amended: the filters of the gated removal block compute exactly the
present-minus-required per-category difference, and dry-run mode mutates
nothing; but apply mode also removes nothing, because the removal block is
gated behind a constant false flag and its per-entry removal bodies are empty:
whenever the manifest is found and metadata resolution succeeds, clear_unref
returns Ok with every cache, the size_changed flag and the disk unchanged,
for both modes. -/
theorem gc_eligible_diff_and_no_removal :
    (∀ present required x,
      x ∈ unreferenced present required ↔ x ∈ present ∧ x ∉ required) ∧
    (∀ paths m deps dry st,
      clear_unref paths { manifest := some m, metadata := some deps } dry st =
        CResult.ok st) := by
  constructor
  · intro present required x
    simp [unreferenced]
  · intro paths m deps dry st
    rfl

/-- C3 counterexample: a manifest path under the cache root but under neither
known subtree does not make the GC invocation fail with an error value; the
invocation succeeds with the state unchanged, silently ignoring the path. -/
theorem classification_error_cex :
    starts_with badToml paths0.cargo_home = true ∧
    starts_with badToml paths0.git_checkouts = false ∧
    starts_with badToml paths0.registry_sources = false ∧
    clear_unref paths0 env3 false st0 = CResult.ok st0 ∧
    clear_unref paths0 env3 false st0 ≠ CResult.err := by
  refine ⟨rfl, rfl, rfl, rfl, ?_⟩
  decide

/-- C3 amended: a manifest path under the cache root but under neither known
subtree is silently ignored: clear_unref returns Ok unchanged because the only
consumer of the classification is gated behind a constant false flag, and the
classification itself, were it forced, panics on such a path (the unreachable
branch) instead of producing an error value. -/
theorem classification_silently_ignored (paths : CargoCachePaths) (t : FilePath')
    (h1 : starts_with t paths.cargo_home = true)
    (h2 : starts_with t paths.git_checkouts = false)
    (h3 : starts_with t paths.registry_sources = false) :
    classifyToml paths t = none ∧
    ∀ m deps dry st, t ∈ deps →
      clear_unref paths { manifest := some m, metadata := some deps } dry st =
        CResult.ok st := by
  refine ⟨?_, ?_⟩
  · unfold classifyToml
    rw [h2, h3]
    simp
  · intro m deps dry st _ht
    rfl

/-- Witness for the amended C3 at the concrete unclassifiable path. -/
theorem classification_silently_ignored_witness :
    starts_with badToml paths0.cargo_home = true ∧
    classifyToml paths0 badToml = none ∧
    clear_unref paths0 { manifest := some projManifest, metadata := some [badToml] }
      false st0 = CResult.ok st0 := by
  refine ⟨rfl, ?_, ?_⟩
  · exact (classification_silently_ignored paths0 badToml rfl rfl rfl).1
  · exact (classification_silently_ignored paths0 badToml rfl rfl rfl).2 projManifest
      [badToml] false st0 (by decide)

end CargoCache
